import Mathlib

/-!
Verification of the Ochamon asset-generation scripts
(`setup-assets/scripts/generate_images.py` and
`setup-assets/scripts/generate_pdfs.py`) against their design document.

The scripts are shallowly embedded: the pixel arithmetic of the gradient
renderer is carried out over `ℚ` (the scripts compute with real-number
division and then truncate with Python `int`), pixel buffers are lists of
rows, and rendered images and PDF stories are explicit descriptions of the
drawing and layout operations the scripts perform.
-/

namespace Ochamon

/-- Python `int()` applied to a rational value: truncation toward zero. -/
def intTrunc (q : ℚ) : ℤ := if 0 ≤ q then ⌊q⌋ else ⌈q⌉

/-- An RGB color triple, as the scripts' 3-tuples of channel ints. -/
structure RGB where
  r : ℕ
  g : ℕ
  b : ℕ
deriving DecidableEq

/-- The `direction` argument of `create_gradient`. -/
inductive Direction where
  | diagonal
  | vertical
  | horizontal
deriving DecidableEq

namespace Images

/-- Loop body of `create_gradient`: the color written by `draw.point((x, y))`.
`t` is the interpolation parameter the source calls `ratio`, and the three
channels are `int(color1[i]*(1-ratio) + color2[i]*ratio)`. -/
def gradientPixel (w h : ℕ) (c1 c2 : RGB) (d : Direction) (x y : ℕ) : ℤ × ℤ × ℤ :=
  let t : ℚ :=
    match d with
    | .diagonal => ((x : ℚ) + (y : ℚ)) / ((w : ℚ) + (h : ℚ))
    | .vertical => (y : ℚ) / (h : ℚ)
    | .horizontal => (x : ℚ) / (w : ℚ)
  (intTrunc ((c1.r : ℚ) * (1 - t) + (c2.r : ℚ) * t),
   intTrunc ((c1.g : ℚ) * (1 - t) + (c2.g : ℚ) * t),
   intTrunc ((c1.b : ℚ) * (1 - t) + (c2.b : ℚ) * t))

/-- `create_gradient(width, height, color1, color2, direction)`: the pixel
buffer built by the nested `for y` / `for x` loops, one list per row. -/
def create_gradient (w h : ℕ) (c1 c2 : RGB) (d : Direction) :
    List (List (ℤ × ℤ × ℤ)) :=
  (List.range h).map fun y =>
    (List.range w).map fun x =>
      gradientPixel w h c1 c2 d x y

/-- Reading back pixel `(x, y)` from a row-major buffer. -/
def pixelAt (buf : List (List (ℤ × ℤ × ℤ))) (x y : ℕ) : Option (ℤ × ℤ × ℤ) :=
  buf[y]?.bind fun row => row[x]?

/-- A grade's color palette entry of `GRADE_COLORS`. -/
structure Palette where
  primary : RGB
  secondary : RGB
  accent : RGB
deriving DecidableEq

/-- The `"Premium"` entry of `GRADE_COLORS`, which `generate_product_image`
also uses as the fallback for unknown grades. -/
def premiumPalette : Palette :=
  ⟨⟨85, 150, 80⟩, ⟨160, 200, 120⟩, ⟨50, 100, 45⟩⟩

/-- The `GRADE_COLORS` dictionary. -/
def GRADE_COLORS (grade : String) : Option Palette :=
  if grade = "Ceremonial" then
    some ⟨⟨76, 140, 74⟩, ⟨144, 190, 109⟩, ⟨45, 90, 39⟩⟩
  else if grade = "Premium" then
    some premiumPalette
  else if grade = "Culinary" then
    some ⟨⟨100, 160, 90⟩, ⟨170, 210, 130⟩, ⟨60, 110, 50⟩⟩
  else if grade = "Competition" then
    some ⟨⟨60, 120, 60⟩, ⟨130, 180, 100⟩, ⟨35, 80, 30⟩⟩
  else
    none

/-- `GRADE_COLORS.get(grade, GRADE_COLORS["Premium"])` in
`generate_product_image`. -/
def paletteFor (grade : String) : Palette :=
  (GRADE_COLORS grade).getD premiumPalette

/-- One record of the image script's `PRODUCTS` list. -/
structure Product where
  slug : String
  name : String
  grade : String
deriving DecidableEq

/-- The image script's `PRODUCTS` catalog. -/
def PRODUCTS : List Product :=
  [⟨"premium-ceremonial-uji", "Premium Ceremonial Uji", "Ceremonial"⟩,
   ⟨"organic-culinary-nishio", "Organic Culinary Nishio", "Culinary"⟩,
   ⟨"classic-usucha-blend", "Classic Usucha Blend", "Premium"⟩,
   ⟨"first-harvest-shincha", "First Harvest Shincha", "Ceremonial"⟩,
   ⟨"daily-matcha-kagoshima", "Daily Matcha Kagoshima", "Culinary"⟩,
   ⟨"competition-grade-uji", "Competition Grade Uji", "Competition"⟩,
   ⟨"organic-ceremonial-kyoto", "Organic Ceremonial Kyoto", "Ceremonial"⟩,
   ⟨"cafe-blend-matcha", "Cafe Blend Matcha", "Culinary"⟩]

/-- A font handle: the truetype path and point size, or the PIL default. -/
structure Font where
  path : String
  size : ℕ
deriving DecidableEq

/-- `ImageFont.load_default()`. -/
def defaultFont : Font := ⟨"load_default", 0⟩

/-- The preferred bold font of `generate_product_image`. -/
def fontLargePath : String := "/usr/share/fonts/truetype/dejavu/DejaVuSans-Bold.ttf"

/-- The preferred regular font of `generate_product_image`. -/
def fontSmallPath : String := "/usr/share/fonts/truetype/dejavu/DejaVuSans.ttf"

/-- The `try`/`except` around the two `ImageFont.truetype` calls: a successful
load keeps the loaded pair, any exception falls back to
`ImageFont.load_default()` for both fonts. -/
def loadFonts : Except String (Font × Font) → Font × Font
  | .ok pair => pair
  | .error _ => (defaultFont, defaultFont)

/-- The composed image `generate_product_image` returns: every drawing
operation it performs on the buffer, in order. Text x-positions come from
font metrics (`draw.textbbox`) and are not modelled; the fixed offsets are. -/
structure ImageDesc where
  width : ℕ
  height : ℕ
  background : List (List (ℤ × ℤ × ℤ))
  circleCenter : ℤ × ℤ
  circleRadius : ℕ
  circleColor : RGB
  leaves : List ((ℚ × ℚ) × ℕ × RGB)
  nameFont : Font
  gradeFont : Font
  nameText : String
  textY : ℤ
  gradeText : String
  gradeTextOffsetY : ℤ
  borderColor : RGB
  borderWidth : ℕ
deriving DecidableEq

/-- `generate_product_image(product, size)`.  The font `try`/`except` outcome
is passed in explicitly as an `Except` value. -/
def generate_product_image (product : Product)
    (fontLoad : Except String (Font × Font)) (size : ℕ × ℕ) : ImageDesc :=
  let w := size.1
  let h := size.2
  let colors := paletteFor product.grade
  let fonts := loadFonts fontLoad
  ⟨w, h,
   create_gradient w h colors.secondary colors.primary .diagonal,
   ((w : ℤ) / 2, (h : ℤ) / 2 - 50),
   min w h / 4,
   colors.accent,
   [(((w : ℚ) * (1/10), (h : ℚ) * (1/10)), 30, colors.primary),
    (((w : ℚ) * (8/10), (h : ℚ) * (15/100)), 25, colors.primary),
    (((w : ℚ) * (15/100), (h : ℚ) * (8/10)), 20, colors.primary),
    (((w : ℚ) * (75/100), (h : ℚ) * (85/100)), 28, colors.primary)],
   fonts.1, fonts.2,
   product.name, (h : ℤ) - 150,
   "Grade: " ++ product.grade, 50,
   colors.accent, 3⟩

/-- One file written by the image script's `main`, with its JPEG quality. -/
structure FileWrite where
  filename : String
  quality : ℕ
deriving DecidableEq

/-- The sequence of files `main` saves, in order: for each product the full
image (quality 90) then the thumbnail (quality 85), and finally the
placeholder (quality 85). -/
def imageWrites (products : List Product) : List FileWrite :=
  (products.flatMap fun p =>
    [⟨p.slug ++ ".jpg", 90⟩, ⟨p.slug ++ "-thumb.jpg", 85⟩]) ++
  [⟨"placeholder.jpg", 85⟩]

/-- The filenames `main` writes, in order. -/
def imagePaths (products : List Product) : List String :=
  (imageWrites products).map FileWrite.filename

/-- The image filenames as a function of the slugs alone. -/
def imagePathsOfSlugs (slugs : List String) : List String :=
  (slugs.flatMap fun s => [s ++ ".jpg", s ++ "-thumb.jpg"]) ++ ["placeholder.jpg"]

/-- Modelled from the spec: `image.thumbnail((400, 400))` is PIL library code,
not part of this repository.  The spec describes it as "a thumbnail produced
by proportional downscaling to fit within 400×400 while preserving aspect
ratio": an image already inside the box keeps its size; otherwise both
dimensions are scaled by the larger shrink factor, rounded to integers. -/
def thumbnailSize (w h mw mh : ℕ) : ℕ × ℕ :=
  if w ≤ mw ∧ h ≤ mh then (w, h)
  else
    let r : ℚ := min ((mw : ℚ) / (w : ℚ)) ((mh : ℚ) / (h : ℚ))
    ((round ((w : ℚ) * r)).toNat, (round ((h : ℚ) * r)).toNat)

/-- The size `main` passes to `generate_product_image` for every record. -/
def mainImageSize : ℕ × ℕ := (800, 800)

/-- x-coordinate of the last pixel along a gradient's axis. -/
def axisEndX (d : Direction) (w : ℕ) : ℕ :=
  match d with
  | .vertical => 0
  | _ => w - 1

/-- y-coordinate of the last pixel along a gradient's axis. -/
def axisEndY (d : Direction) (h : ℕ) : ℕ :=
  match d with
  | .horizontal => 0
  | _ => h - 1

/-- The denominator of a gradient's interpolation parameter. -/
def axisExtent (d : Direction) (w h : ℕ) : ℕ :=
  match d with
  | .diagonal => w + h
  | .vertical => h
  | .horizontal => w

end Images

namespace Pdfs

/-- One record of the PDF script's `PRODUCTS` list. -/
structure Product where
  slug : String
  name : String
  grade : String
  region : String
  origin : String
  harvest : String
  cultivation : String
  processing : String
  mesh : String
  color : String
  flavor : String
  aroma : String
  caffeine : String
  l_theanine : String
  catechins : String
  shelf_life : String
  storage : String
  certifications : List String
  uses : List String
  moq : String
  lead_time : String
  price_range : String
deriving DecidableEq

/-- One flowable appended to the `story` of `create_spec_sheet`. -/
inductive Block where
  | para (style : String) (text : String)
  | table (rows : List (List String))
  | spacer (w : ℚ) (hgt : ℚ)
deriving DecidableEq

/-- The separator `create_spec_sheet` joins certifications and uses with
(the source file's literal bytes decode to these three characters). -/
def bulletSep : String := " ‚Ä¢ "

/-- The glyph prefixed to the joined certification list. -/
def certMark : String := "‚úì "

/-- The logo glyph of the header row. -/
def logoGlyph : String := "üçµ"

/-- `create_spec_sheet(product, output_path)`: the `story` list of flowables,
in order.  The generation date of the footer is passed in as `today`. -/
def create_spec_sheet (p : Product) (today : String) : List Block :=
  [Block.table [[logoGlyph, "<b>" ++ p.name ++ "</b>", "<b>" ++ p.grade ++ " Grade</b>"]],
   Block.spacer 1 (72 * (2/10)),
   Block.para "Subtitle" ("<i>Origin: " ++ p.region ++ ", " ++ p.origin ++ "</i>"),
   Block.spacer 1 (72 * (3/10)),
   Block.para "SectionHeader" "PRODUCT OVERVIEW",
   Block.table [["Harvest:", p.harvest], ["Cultivation:", p.cultivation],
                ["Processing:", p.processing], ["Mesh Size:", p.mesh]],
   Block.spacer 1 (72 * (2/10)),
   Block.para "SectionHeader" "SENSORY PROFILE",
   Block.table [["Color:", p.color], ["Flavor:", p.flavor], ["Aroma:", p.aroma]],
   Block.spacer 1 (72 * (2/10)),
   Block.para "SectionHeader" "NUTRITIONAL INFORMATION (per gram)",
   Block.table [["Caffeine", "L-Theanine", "Catechins"],
                [p.caffeine, p.l_theanine, p.catechins]],
   Block.spacer 1 (72 * (2/10)),
   Block.para "SectionHeader" "STORAGE & SHELF LIFE",
   Block.table [["Shelf Life:", p.shelf_life], ["Storage:", p.storage]],
   Block.spacer 1 (72 * (2/10))] ++
  (if p.certifications ≠ [] then
    [Block.para "SectionHeader" "CERTIFICATIONS",
     Block.para "SpecBodyText" (certMark ++ String.intercalate bulletSep p.certifications),
     Block.spacer 1 (72 * (2/10))]
   else []) ++
  [Block.para "SectionHeader" "RECOMMENDED USES",
   Block.para "SpecBodyText" (String.intercalate bulletSep p.uses),
   Block.spacer 1 (72 * (2/10)),
   Block.para "SectionHeader" "ORDERING INFORMATION",
   Block.table [["Minimum Order:", p.moq], ["Lead Time:", p.lead_time],
                ["Price Range:", p.price_range]],
   Block.spacer 1 (72 * (3/10)),
   Block.para "SpecSmallText"
     ("<i>Document generated: " ++ today ++ " | Matcha Trading Platform</i>"),
   Block.para "SpecSmallText"
     "<i>For the most current information, please contact your sales representative.</i>"]

/-- The PDF script's `PRODUCTS` catalog. -/
def PRODUCTS : List Product :=
  [⟨"premium-ceremonial-uji", "Premium Ceremonial Uji", "Ceremonial", "Uji, Kyoto",
    "Japan", "First Harvest (Ichibancha)", "Shade-grown (20+ days)", "Stone-ground",
    "1000+ mesh", "Vibrant green", "Rich umami, subtle sweetness, no bitterness",
    "Fresh, grassy, vegetal", "~34mg per gram", "~20mg per gram", "~100mg per gram",
    "12 months (unopened), 1 month (opened)",
    "Cool, dry place away from light. Refrigerate after opening.",
    ["JAS Organic", "USDA Organic", "EU Organic"],
    ["Traditional tea ceremony", "Usucha preparation", "Premium beverages"],
    "5 kg", "14 days", "$80-120 per kg"⟩,
   ⟨"organic-culinary-nishio", "Organic Culinary Nishio", "Culinary", "Nishio, Aichi",
    "Japan", "Second/Third Harvest", "Shade-grown (14 days)", "Stone-ground",
    "800 mesh", "Yellow-green", "Strong, slightly bitter, robust", "Earthy, vegetal",
    "~32mg per gram", "~14mg per gram", "~120mg per gram",
    "18 months (unopened), 2 months (opened)", "Cool, dry place away from light.",
    ["JAS Organic", "USDA Organic"],
    ["Baking", "Smoothies", "Lattes", "Ice cream", "Cooking"],
    "10 kg", "10 days", "$25-45 per kg"⟩,
   ⟨"classic-usucha-blend", "Classic Usucha Blend", "Premium", "Uji, Kyoto",
    "Japan", "First Harvest (Ichibancha)", "Shade-grown (18 days)", "Stone-ground",
    "900 mesh", "Bright green", "Balanced umami and sweetness", "Fresh, slightly sweet",
    "~33mg per gram", "~18mg per gram", "~105mg per gram",
    "12 months (unopened), 1 month (opened)",
    "Cool, dry place away from light. Refrigerate after opening.",
    ["JAS Organic"], ["Daily usucha", "Premium lattes", "Desserts"],
    "5 kg", "12 days", "$50-70 per kg"⟩,
   ⟨"first-harvest-shincha", "First Harvest Shincha", "Ceremonial", "Shizuoka",
    "Japan", "First Harvest (Ichibancha) - Spring", "Shade-grown (21 days)",
    "Stone-ground, fresh processed", "1000+ mesh", "Brilliant emerald green",
    "Exceptionally sweet, deep umami", "Fresh spring grass, floral notes",
    "~35mg per gram", "~22mg per gram", "~95mg per gram",
    "6 months (unopened), 2 weeks (opened)",
    "Refrigerate immediately. Consume quickly for best flavor.",
    ["JAS Organic", "Single Origin"],
    ["Tea ceremony", "Special occasions", "Koicha preparation"],
    "2 kg", "7 days (seasonal availability)", "$120-180 per kg"⟩,
   ⟨"daily-matcha-kagoshima", "Daily Matcha Kagoshima", "Culinary", "Kagoshima",
    "Japan", "Second Harvest", "Partial shade (10 days)", "Stone-ground",
    "600 mesh", "Green with yellow tones", "Mild, slightly astringent",
    "Light, grassy", "~30mg per gram", "~12mg per gram", "~130mg per gram",
    "24 months (unopened), 3 months (opened)", "Cool, dry place.",
    [], ["Daily beverages", "Commercial food production", "Bulk cooking"],
    "25 kg", "7 days", "$15-25 per kg"⟩,
   ⟨"competition-grade-uji", "Competition Grade Uji", "Competition", "Uji, Kyoto",
    "Japan", "First Harvest, Hand-picked", "Traditional shade-grown (25+ days)",
    "Hand-picked, stone-ground by master", "1200+ mesh (ultra-fine)",
    "Deep vibrant jade green", "Complex umami, natural sweetness, zero bitterness",
    "Intensely fresh, complex vegetal notes", "~36mg per gram", "~25mg per gram",
    "~90mg per gram", "6 months (unopened), 2 weeks (opened)",
    "Refrigerate. Use nitrogen-flushed container.",
    ["JAS Organic", "Award Winner", "Single Estate"],
    ["Competition", "Tea ceremony masters", "Ultra-premium service"],
    "1 kg", "21 days (limited availability)", "$200-400 per kg"⟩,
   ⟨"organic-ceremonial-kyoto", "Organic Ceremonial Kyoto", "Ceremonial", "Kyoto",
    "Japan", "First Harvest (Ichibancha)", "Organic shade-grown (20 days)",
    "Stone-ground", "1000 mesh", "Vivid green", "Smooth umami, gentle sweetness",
    "Clean, fresh, slightly marine", "~34mg per gram", "~19mg per gram",
    "~98mg per gram", "12 months (unopened), 1 month (opened)",
    "Cool, dry place away from light. Refrigerate after opening.",
    ["JAS Organic", "USDA Organic", "EU Organic", "Kosher"],
    ["Tea ceremony", "Premium beverages", "Health-conscious consumers"],
    "5 kg", "14 days", "$90-130 per kg"⟩,
   ⟨"cafe-blend-matcha", "Cafe Blend Matcha", "Culinary", "Nishio, Aichi",
    "Japan", "Blended harvests", "Mixed cultivation",
    "Stone-ground, blended for consistency", "700 mesh", "Consistent green",
    "Bold, stands up to milk and sweeteners", "Robust, earthy", "~31mg per gram",
    "~13mg per gram", "~115mg per gram", "18 months (unopened), 3 months (opened)",
    "Cool, dry place.", ["Food Service Grade"],
    ["Cafe lattes", "Smoothies", "Commercial beverages", "Desserts"],
    "20 kg", "7 days", "$20-35 per kg"⟩]

/-- The filenames the PDF script's `main` writes, in order. -/
def pdfPaths (products : List Product) : List String :=
  products.map fun p => p.slug ++ "-spec.pdf"

/-- The PDF filenames as a function of the slugs alone. -/
def pdfPathsOfSlugs (slugs : List String) : List String :=
  slugs.map fun s => s ++ "-spec.pdf"

end Pdfs

end Ochamon

namespace Ochamon.Images

/-- Indexing the buffer built by `create_gradient` at an in-range coordinate
recovers the loop body's pixel. -/
theorem pixelAt_create_gradient {w h x y : ℕ} (c1 c2 : RGB) (d : Direction)
    (hx : x < w) (hy : y < h) :
    pixelAt (create_gradient w h c1 c2 d) x y =
      some (gradientPixel w h c1 c2 d x y) := by
  simp [pixelAt, create_gradient, List.getElem?_map, List.getElem?_range, hx, hy]

/-- C1: for every width ≥ 1, height ≥ 1, RGB colors and direction,
`create_gradient` returns a width-by-height pixel buffer in which the pixel at
(x, y) has each channel equal to the truncated blend `int(c1*(1-t) + c2*t)`,
where t is `(x+y)/(width+height)` for diagonal, `y/height` for vertical and
`x/width` for horizontal. -/
theorem create_gradient_pixel_blend (w h : ℕ) (c1 c2 : RGB) (d : Direction)
    (x y : ℕ) (hw : 1 ≤ w) (hh : 1 ≤ h) (hx : x < w) (hy : y < h) :
    (create_gradient w h c1 c2 d).length = h ∧
    (∀ row ∈ create_gradient w h c1 c2 d, row.length = w) ∧
    (let tv : ℚ :=
      match d with
      | .diagonal => ((x : ℚ) + (y : ℚ)) / ((w : ℚ) + (h : ℚ))
      | .vertical => (y : ℚ) / (h : ℚ)
      | .horizontal => (x : ℚ) / (w : ℚ)
    pixelAt (create_gradient w h c1 c2 d) x y =
      some (intTrunc ((c1.r : ℚ) * (1 - tv) + (c2.r : ℚ) * tv),
            intTrunc ((c1.g : ℚ) * (1 - tv) + (c2.g : ℚ) * tv),
            intTrunc ((c1.b : ℚ) * (1 - tv) + (c2.b : ℚ) * tv))) := by
  refine ⟨by simp [create_gradient], ?_, ?_⟩
  · intro row hrow
    simp only [create_gradient, List.mem_map, List.mem_range] at hrow
    obtain ⟨y', -, rfl⟩ := hrow
    simp
  · cases d <;> simp [pixelAt_create_gradient c1 c2 _ hx hy, gradientPixel]

/-- Concrete instance of `create_gradient_pixel_blend`: the 2×2 diagonal
gradient from black to white has the pixel (1, 0) at t = 1/4, each channel
`int(255/4) = 63`. -/
theorem create_gradient_pixel_blend_witness :
    ((1 : ℕ) ≤ 2 ∧ (1 : ℕ) < 2 ∧ (0 : ℕ) < 2) ∧
    pixelAt (create_gradient 2 2 ⟨0, 0, 0⟩ ⟨255, 255, 255⟩ .diagonal) 1 0 =
      some (63, 63, 63) := by
  refine ⟨by decide, ?_⟩
  have h := create_gradient_pixel_blend 2 2 ⟨0, 0, 0⟩ ⟨255, 255, 255⟩ .diagonal
    1 0 (by decide) (by decide) (by decide) (by decide)
  have h3 := h.2.2
  simp only [] at h3
  rw [h3]
  have hq : ((0 : ℚ) * (1 - (1 + 0) / (2 + 2)) + (255 : ℚ) * ((1 + 0) / (2 + 2))) = 255 / 4 := by
    norm_num
  have hflr : intTrunc (255 / 4 : ℚ) = 63 := by
    rw [intTrunc, if_pos (by norm_num), Int.floor_eq_iff] <;> norm_num
  norm_num [hq, hflr]

/-- C2: for a catalog of N product records, one run of the image batch driver
performs exactly 2N+1 file writes: `<slug>.jpg` at quality 90 and
`<slug>-thumb.jpg` at quality 85 for each record, plus `placeholder.jpg` at
quality 85; on the script's own catalog all 2N+1 filenames are distinct. -/
theorem image_batch_writes (ps : List Product) :
    (imageWrites ps).length = 2 * ps.length + 1 ∧
    (∀ p ∈ ps, (⟨p.slug ++ ".jpg", 90⟩ : FileWrite) ∈ imageWrites ps ∧
       (⟨p.slug ++ "-thumb.jpg", 85⟩ : FileWrite) ∈ imageWrites ps) ∧
    (⟨"placeholder.jpg", 85⟩ : FileWrite) ∈ imageWrites ps ∧
    (imagePaths PRODUCTS).Nodup := by
  refine ⟨?_, ?_, ?_, ?_⟩
  · induction ps with
    | nil => simp [imageWrites]
    | cons p ps ih =>
      simp only [imageWrites, List.flatMap_cons, List.length_append,
        List.length_cons, List.length_nil, List.append_assoc] at ih ⊢
      omega
  · intro p hp
    refine ⟨?_, ?_⟩ <;>
      · simp only [imageWrites, List.mem_append, List.mem_flatMap]
        exact Or.inl ⟨p, hp, by simp⟩
  · simp [imageWrites]
  · decide

/-- Concrete instance of `image_batch_writes`: the script's 8-record catalog
yields 17 writes, and the first record's full image is among them. -/
theorem image_batch_writes_witness :
    (imageWrites PRODUCTS).length = 2 * PRODUCTS.length + 1 ∧
    (⟨"premium-ceremonial-uji" ++ ".jpg", 90⟩ : FileWrite) ∈ imageWrites PRODUCTS :=
  ⟨(image_batch_writes PRODUCTS).1,
   ((image_batch_writes PRODUCTS).2.1
     ⟨"premium-ceremonial-uji", "Premium Ceremonial Uji", "Ceremonial"⟩ (by decide)).1⟩

/-- C3: for every grade string outside the palette table, the composer
substitutes the defined default palette (the `"Premium"` entry) and still
produces a fully composed image: the background gradient and circle are drawn
from the default palette. -/
theorem unknown_grade_default_palette (p : Product)
    (fr : Except String (Font × Font)) (size : ℕ × ℕ)
    (h1 : p.grade ≠ "Ceremonial") (h2 : p.grade ≠ "Premium")
    (h3 : p.grade ≠ "Culinary") (h4 : p.grade ≠ "Competition") :
    paletteFor p.grade = premiumPalette ∧
    (generate_product_image p fr size).background =
      create_gradient size.1 size.2 premiumPalette.secondary premiumPalette.primary
        .diagonal ∧
    (generate_product_image p fr size).circleColor = premiumPalette.accent ∧
    (generate_product_image p fr size).borderColor = premiumPalette.accent := by
  have hpal : paletteFor p.grade = premiumPalette := by
    simp [paletteFor, GRADE_COLORS, h1, h2, h3, h4]
  refine ⟨hpal, ?_, ?_, ?_⟩ <;> simp [generate_product_image, hpal]

/-- Concrete instance of `unknown_grade_default_palette` at the unknown grade
`"Matcha"`. -/
theorem unknown_grade_default_palette_witness :
    ("Matcha" ≠ "Ceremonial" ∧ "Matcha" ≠ "Premium" ∧
     "Matcha" ≠ "Culinary" ∧ "Matcha" ≠ "Competition") ∧
    paletteFor "Matcha" = premiumPalette ∧
    (generate_product_image ⟨"x", "X", "Matcha"⟩ (.error "boom") (800, 800)).circleColor =
      premiumPalette.accent :=
  ⟨by decide,
   (unknown_grade_default_palette ⟨"x", "X", "Matcha"⟩ (.error "boom") (800, 800)
      (by decide) (by decide) (by decide) (by decide)).1,
   (unknown_grade_default_palette ⟨"x", "X", "Matcha"⟩ (.error "boom") (800, 800)
      (by decide) (by decide) (by decide) (by decide)).2.2.1⟩

/-- C10: for every grade with no entry in `GRADE_COLORS`, the substituted
default palette is exactly the Premium palette — primary (85,150,80),
secondary (160,200,120), accent (50,100,45) — so an unrecognized grade and
`"Premium"` select identical palettes. -/
theorem default_palette_is_premium (g : String) (h : GRADE_COLORS g = none) :
    paletteFor g = ⟨⟨85, 150, 80⟩, ⟨160, 200, 120⟩, ⟨50, 100, 45⟩⟩ ∧
    paletteFor g = paletteFor "Premium" := by
  have h1 : paletteFor g = premiumPalette := by simp [paletteFor, h]
  have h2 : paletteFor "Premium" = premiumPalette := by
    simp [paletteFor, GRADE_COLORS]
  exact ⟨h1, by rw [h1, h2]⟩

/-- Concrete instance of `default_palette_is_premium` at the unknown grade
`"Imperial"`. -/
theorem default_palette_is_premium_witness :
    GRADE_COLORS "Imperial" = none ∧
    paletteFor "Imperial" = paletteFor "Premium" :=
  ⟨by decide, (default_palette_is_premium "Imperial" (by decide)).2⟩

/-- C8 counterexample: at the default 800×800 size the powder circle's center
is (400, 350), not the image center — its y-coordinate is not height/2. -/
theorem powder_circle_not_centered :
    (generate_product_image ⟨"premium-ceremonial-uji", "Premium Ceremonial Uji", "Ceremonial"⟩
        (.error "no font") (800, 800)).circleCenter = (400, 350) ∧
    ((400 : ℤ), (350 : ℤ)) ≠ ((800 : ℤ) / 2, (800 : ℤ) / 2) := by
  exact ⟨by decide, by decide⟩

/-- C8 (amended): the powder circle is centered horizontally at `width // 2`
but vertically 50 pixels above the middle, at `height // 2 - 50`; its radius
is `min(width, height) // 4` and it is filled with the grade palette's accent
color. -/
theorem powder_circle_geometry (p : Product) (fr : Except String (Font × Font))
    (w h : ℕ) :
    (generate_product_image p fr (w, h)).circleCenter =
      ((w : ℤ) / 2, (h : ℤ) / 2 - 50) ∧
    (generate_product_image p fr (w, h)).circleRadius = min w h / 4 ∧
    (generate_product_image p fr (w, h)).circleColor = (paletteFor p.grade).accent :=
  ⟨rfl, rfl, rfl⟩

/-- Concrete instance of `powder_circle_geometry` at 800×800. -/
theorem powder_circle_geometry_witness :
    (generate_product_image ⟨"cafe-blend-matcha", "Cafe Blend Matcha", "Culinary"⟩
        (.ok (⟨fontLargePath, 36⟩, ⟨fontSmallPath, 24⟩)) (800, 800)).circleCenter =
      ((800 : ℤ) / 2, (800 : ℤ) / 2 - 50) :=
  (powder_circle_geometry ⟨"cafe-blend-matcha", "Cafe Blend Matcha", "Culinary"⟩
    (.ok (⟨fontLargePath, 36⟩, ⟨fontSmallPath, 24⟩)) 800 800).1

/-- C9: if loading the preferred bold/regular font pair fails with any
exception, the composer substitutes the built-in default font for both and
produces exactly the image it would produce had the default pair loaded: the
failure is never surfaced and rendering completes. -/
theorem font_failure_never_surfaced (p : Product) (size : ℕ × ℕ) (s : String) :
    generate_product_image p (.error s) size =
      generate_product_image p (.ok (defaultFont, defaultFont)) size ∧
    (generate_product_image p (.error s) size).nameFont = defaultFont ∧
    (generate_product_image p (.error s) size).gradeFont = defaultFont :=
  ⟨rfl, rfl, rfl⟩

/-- `int()` of a natural number is itself. -/
theorem intTrunc_natCast (n : ℕ) : intTrunc (n : ℚ) = (n : ℤ) := by
  rw [intTrunc, if_pos (Nat.cast_nonneg n), Int.floor_natCast]

/-- Evaluation rule for `intTrunc` on a nonnegative rational. -/
theorem intTrunc_eq (q : ℚ) (n : ℤ) (h0 : 0 ≤ q) (hl : (n : ℚ) ≤ q)
    (hu : q < (n : ℚ) + 1) : intTrunc q = n := by
  rw [intTrunc, if_pos h0]
  exact Int.floor_eq_iff.mpr ⟨hl, hu⟩

/-- A truncated blend lies within `(1-t)*|c1-c2| + 1` of `c2`. -/
theorem intTrunc_blend_close (a b : ℕ) (t : ℚ) (h0 : 0 ≤ t) (h1 : t ≤ 1) :
    |((intTrunc ((a : ℚ) * (1 - t) + (b : ℚ) * t) : ℤ) : ℚ) - (b : ℚ)| <
      (1 - t) * |(a : ℚ) - (b : ℚ)| + 1 := by
  set v : ℚ := (a : ℚ) * (1 - t) + (b : ℚ) * t with hv
  have ha : (0 : ℚ) ≤ (a : ℚ) := Nat.cast_nonneg a
  have hb : (0 : ℚ) ≤ (b : ℚ) := Nat.cast_nonneg b
  have h1t : (0 : ℚ) ≤ 1 - t := by linarith
  have hv0 : (0 : ℚ) ≤ v :=
    add_nonneg (mul_nonneg ha h1t) (mul_nonneg hb h0)
  have htr : intTrunc v = ⌊v⌋ := by rw [intTrunc, if_pos hv0]
  rw [htr]
  have hfl : ((⌊v⌋ : ℤ) : ℚ) ≤ v := Int.floor_le v
  have hfl2 : v < ((⌊v⌋ : ℤ) : ℚ) + 1 := Int.lt_floor_add_one v
  have habs : |v - (b : ℚ)| = (1 - t) * |(a : ℚ) - (b : ℚ)| := by
    have hdiff : v - (b : ℚ) = (1 - t) * ((a : ℚ) - (b : ℚ)) := by rw [hv]; ring
    rw [hdiff, abs_mul, abs_of_nonneg h1t]
  calc |((⌊v⌋ : ℤ) : ℚ) - (b : ℚ)|
      ≤ |((⌊v⌋ : ℤ) : ℚ) - v| + |v - (b : ℚ)| := abs_sub_le _ v _
    _ < 1 + (1 - t) * |(a : ℚ) - (b : ℚ)| := by
        have heq : |((⌊v⌋ : ℤ) : ℚ) - v| = v - ((⌊v⌋ : ℤ) : ℚ) := by
          rw [abs_sub_comm, abs_of_nonneg (by linarith)]
        rw [heq, habs]
        linarith
    _ = (1 - t) * |(a : ℚ) - (b : ℚ)| + 1 := by ring

/-- If `1 - t ≤ 2/e`, the truncated blend lies within `2*|c1-c2|/e + 1` of
`c2`. -/
theorem end_channel_close (a b : ℕ) (t : ℚ) (e : ℕ) (he : 0 < e)
    (h0 : 0 ≤ t) (h1 : t ≤ 1) (ht : 1 - t ≤ 2 / (e : ℚ)) :
    |((intTrunc ((a : ℚ) * (1 - t) + (b : ℚ) * t) : ℤ) : ℚ) - (b : ℚ)| <
      2 * |(a : ℚ) - (b : ℚ)| / (e : ℚ) + 1 := by
  have hcore := intTrunc_blend_close a b t h0 h1
  have habs : (0 : ℚ) ≤ |(a : ℚ) - (b : ℚ)| := abs_nonneg _
  have he' : (0 : ℚ) < (e : ℚ) := by exact_mod_cast he
  have hmul : (1 - t) * |(a : ℚ) - (b : ℚ)| ≤ 2 / (e : ℚ) * |(a : ℚ) - (b : ℚ)| :=
    mul_le_mul_of_nonneg_right ht habs
  have h2 : 2 / (e : ℚ) * |(a : ℚ) - (b : ℚ)| = 2 * |(a : ℚ) - (b : ℚ)| / (e : ℚ) := by
    ring
  linarith

/-- C4 counterexample: for width 2, height 1, color1 black, color2 white,
horizontal direction, the last pixel along the axis is (127, 127, 127) — each
channel is 128 away from color2's 255, not within rounding tolerance. -/
theorem gradient_boundary_cex :
    pixelAt (create_gradient 2 1 ⟨0, 0, 0⟩ ⟨255, 255, 255⟩ .horizontal) 1 0 =
      some (127, 127, 127) ∧
    ¬((255 : ℤ) - 127 ≤ 1) := by
  refine ⟨?_, by decide⟩
  rw [pixelAt_create_gradient _ _ _ (by decide) (by decide)]
  have hch : intTrunc (((0 : ℕ) : ℚ) * (1 - ((1 : ℕ) : ℚ) / ((2 : ℕ) : ℚ)) +
      ((255 : ℕ) : ℚ) * (((1 : ℕ) : ℚ) / ((2 : ℕ) : ℚ))) = 127 := by
    apply intTrunc_eq <;> push_cast <;> norm_num
  simp only [gradientPixel, hch]

/-- C4 (amended): the pixel at (0, 0) equals color1 exactly (t = 0 there for
every direction); the last pixel along the chosen axis carries the truncated
blend at the largest t the loop reaches, which is within `2*|c1-c2|/extent + 1`
of color2 (extent = width, height, or width+height) rather than equal to it —
the deviation vanishes only as the dimensions grow. -/
theorem gradient_boundary_amended (w h : ℕ) (c1 c2 : RGB) (d : Direction)
    (hw : 1 ≤ w) (hh : 1 ≤ h) :
    pixelAt (create_gradient w h c1 c2 d) 0 0 =
      some ((c1.r : ℤ), (c1.g : ℤ), (c1.b : ℤ)) ∧
    ∃ px : ℤ × ℤ × ℤ,
      pixelAt (create_gradient w h c1 c2 d) (axisEndX d w) (axisEndY d h) =
        some px ∧
      |(px.1 : ℚ) - (c2.r : ℚ)| <
        2 * |(c1.r : ℚ) - (c2.r : ℚ)| / (axisExtent d w h : ℚ) + 1 ∧
      |(px.2.1 : ℚ) - (c2.g : ℚ)| <
        2 * |(c1.g : ℚ) - (c2.g : ℚ)| / (axisExtent d w h : ℚ) + 1 ∧
      |(px.2.2 : ℚ) - (c2.b : ℚ)| <
        2 * |(c1.b : ℚ) - (c2.b : ℚ)| / (axisExtent d w h : ℚ) + 1 := by
  constructor
  · rw [pixelAt_create_gradient c1 c2 d (by omega) (by omega)]
    cases d <;>
      simp [gradientPixel, intTrunc_natCast]
  · refine ⟨gradientPixel w h c1 c2 d (axisEndX d w) (axisEndY d h),
      pixelAt_create_gradient c1 c2 d ?_ ?_, ?_⟩
    · cases d <;> simp [axisEndX] <;> omega
    · cases d <;> simp [axisEndY] <;> omega
    · have hW : (1 : ℚ) ≤ (w : ℚ) := by exact_mod_cast hw
      have hH : (1 : ℚ) ≤ (h : ℚ) := by exact_mod_cast hh
      have hW0 : (0 : ℚ) < (w : ℚ) := by linarith
      have hH0 : (0 : ℚ) < (h : ℚ) := by linarith
      cases d with
      | diagonal =>
        have hcastw : ((w - 1 : ℕ) : ℚ) = (w : ℚ) - 1 := by
          push_cast [hw]; ring
        have hcasth : ((h - 1 : ℕ) : ℚ) = (h : ℚ) - 1 := by
          push_cast [hh]; ring
        simp only [gradientPixel, axisEndX, axisEndY, axisExtent, hcastw, hcasth]
        have h0 : (0 : ℚ) ≤ ((w : ℚ) - 1 + ((h : ℚ) - 1)) / ((w : ℚ) + (h : ℚ)) :=
          div_nonneg (by linarith) (by linarith)
        have h1 : ((w : ℚ) - 1 + ((h : ℚ) - 1)) / ((w : ℚ) + (h : ℚ)) ≤ 1 :=
          (div_le_one (by linarith)).mpr (by linarith)
        have ht : 1 - ((w : ℚ) - 1 + ((h : ℚ) - 1)) / ((w : ℚ) + (h : ℚ)) ≤
            2 / ((w + h : ℕ) : ℚ) := by
          have hsum : ((w + h : ℕ) : ℚ) = (w : ℚ) + (h : ℚ) := by push_cast; ring
          rw [hsum]
          have : 1 - ((w : ℚ) - 1 + ((h : ℚ) - 1)) / ((w : ℚ) + (h : ℚ)) =
              2 / ((w : ℚ) + (h : ℚ)) := by
            field_simp
            ring
          rw [this]
        exact ⟨end_channel_close c1.r c2.r _ (w + h) (by omega) h0 h1 ht,
               end_channel_close c1.g c2.g _ (w + h) (by omega) h0 h1 ht,
               end_channel_close c1.b c2.b _ (w + h) (by omega) h0 h1 ht⟩
      | vertical =>
        have hcasth : ((h - 1 : ℕ) : ℚ) = (h : ℚ) - 1 := by
          push_cast [hh]; ring
        simp only [gradientPixel, axisEndX, axisEndY, axisExtent, hcasth]
        have h0 : (0 : ℚ) ≤ ((h : ℚ) - 1) / (h : ℚ) :=
          div_nonneg (by linarith) (by linarith)
        have h1 : ((h : ℚ) - 1) / (h : ℚ) ≤ 1 :=
          (div_le_one hH0).mpr (by linarith)
        have ht : 1 - ((h : ℚ) - 1) / (h : ℚ) ≤ 2 / ((h : ℕ) : ℚ) := by
          have heq : 1 - ((h : ℚ) - 1) / (h : ℚ) = 1 / (h : ℚ) := by
            field_simp
          rw [heq]
          have hpos : (0 : ℚ) ≤ 1 / (h : ℚ) := by positivity
          have htwo : (2 : ℚ) / (h : ℚ) = 1 / (h : ℚ) + 1 / (h : ℚ) := by ring
          linarith
        refine ⟨?_, ?_, ?_⟩ <;>
          exact end_channel_close _ _ (((h : ℚ) - 1) / (h : ℚ)) h
            (by omega) h0 h1 ht
      | horizontal =>
        have hcastw : ((w - 1 : ℕ) : ℚ) = (w : ℚ) - 1 := by
          push_cast [hw]; ring
        simp only [gradientPixel, axisEndX, axisEndY, axisExtent, hcastw]
        have h0 : (0 : ℚ) ≤ ((w : ℚ) - 1) / (w : ℚ) :=
          div_nonneg (by linarith) (by linarith)
        have h1 : ((w : ℚ) - 1) / (w : ℚ) ≤ 1 :=
          (div_le_one hW0).mpr (by linarith)
        have ht : 1 - ((w : ℚ) - 1) / (w : ℚ) ≤ 2 / ((w : ℕ) : ℚ) := by
          have heq : 1 - ((w : ℚ) - 1) / (w : ℚ) = 1 / (w : ℚ) := by
            field_simp
          rw [heq]
          have hpos : (0 : ℚ) ≤ 1 / (w : ℚ) := by positivity
          have htwo : (2 : ℚ) / (w : ℚ) = 1 / (w : ℚ) + 1 / (w : ℚ) := by ring
          linarith
        refine ⟨?_, ?_, ?_⟩ <;>
          exact end_channel_close _ _ (((w : ℚ) - 1) / (w : ℚ)) w
            (by omega) h0 h1 ht

/-- Concrete instance of `gradient_boundary_amended` on a 2×2 diagonal
gradient. -/
theorem gradient_boundary_amended_witness :
    ((1 : ℕ) ≤ 2 ∧ (1 : ℕ) ≤ 2) ∧
    pixelAt (create_gradient 2 2 ⟨10, 20, 30⟩ ⟨200, 210, 220⟩ .diagonal) 0 0 =
      some (10, 20, 30) :=
  ⟨by decide,
   (gradient_boundary_amended 2 2 ⟨10, 20, 30⟩ ⟨200, 210, 220⟩ .diagonal
      (by decide) (by decide)).1⟩

/-- Concrete instance of `font_failure_never_surfaced`. -/
theorem font_failure_never_surfaced_witness :
    (generate_product_image ⟨"classic-usucha-blend", "Classic Usucha Blend", "Premium"⟩
        (.error "OSError: cannot open resource") (800, 800)).nameFont = defaultFont :=
  (font_failure_never_surfaced ⟨"classic-usucha-blend", "Classic Usucha Blend", "Premium"⟩
    (800, 800) "OSError: cannot open resource").2.1

/-- C5: every full product image the driver generates is 800×800, and its
thumbnail fits in the 400×400 box (max dimension ≤ 400) with the aspect ratio
preserved exactly: the thumbnail is 400×400. -/
theorem thumbnail_fits (p : Product) (hp : p ∈ PRODUCTS)
    (fr : Except String (Font × Font)) :
    (generate_product_image p fr mainImageSize).width = 800 ∧
    (generate_product_image p fr mainImageSize).height = 800 ∧
    thumbnailSize 800 800 400 400 = (400, 400) ∧
    max (thumbnailSize 800 800 400 400).1 (thumbnailSize 800 800 400 400).2 ≤ 400 ∧
    (thumbnailSize 800 800 400 400).1 * 800 =
      (thumbnailSize 800 800 400 400).2 * 800 := by
  have hts : thumbnailSize 800 800 400 400 = (400, 400) := by
    rw [thumbnailSize, if_neg (by decide)]
    norm_num
    all_goals decide
  exact ⟨rfl, rfl, hts, by rw [hts]; decide, by rw [hts]⟩

/-- Concrete instance of `thumbnail_fits` at the first catalog record. -/
theorem thumbnail_fits_witness :
    (⟨"premium-ceremonial-uji", "Premium Ceremonial Uji", "Ceremonial"⟩ : Product) ∈
      PRODUCTS ∧
    thumbnailSize 800 800 400 400 = (400, 400) :=
  ⟨by decide,
   (thumbnail_fits ⟨"premium-ceremonial-uji", "Premium Ceremonial Uji", "Ceremonial"⟩
     (by decide) (.error "no font")).2.2.1⟩

end Ochamon.Images

namespace Ochamon.Pdfs

/-- C6: the spec sheet contains the Certifications section header iff the
record's certification list is non-empty — in which case the joined
certification entries (bullet separator) appear as a body paragraph — and the
Recommended Uses header and its joined values are present for every record. -/
theorem spec_sheet_sections (p : Product) (today : String) :
    ((Block.para "SectionHeader" "CERTIFICATIONS") ∈ create_spec_sheet p today ↔
      p.certifications ≠ []) ∧
    (p.certifications ≠ [] →
      (Block.para "SpecBodyText"
          (certMark ++ String.intercalate bulletSep p.certifications)) ∈
        create_spec_sheet p today) ∧
    (Block.para "SectionHeader" "RECOMMENDED USES") ∈ create_spec_sheet p today ∧
    (Block.para "SpecBodyText" (String.intercalate bulletSep p.uses)) ∈
      create_spec_sheet p today := by
  by_cases hc : p.certifications = [] <;> simp [create_spec_sheet, hc]

/-- Concrete instance of `spec_sheet_sections`: the empty-certification record
`daily-matcha-kagoshima` omits the Certifications section, and its Recommended
Uses section is present. -/
theorem spec_sheet_sections_witness :
    (Block.para "SectionHeader" "CERTIFICATIONS") ∉
      create_spec_sheet
        ⟨"daily-matcha-kagoshima", "Daily Matcha Kagoshima", "Culinary", "Kagoshima",
         "Japan", "Second Harvest", "Partial shade (10 days)", "Stone-ground",
         "600 mesh", "Green with yellow tones", "Mild, slightly astringent",
         "Light, grassy", "~30mg per gram", "~12mg per gram", "~130mg per gram",
         "24 months (unopened), 3 months (opened)", "Cool, dry place.",
         [], ["Daily beverages", "Commercial food production", "Bulk cooking"],
         "25 kg", "7 days", "$15-25 per kg"⟩ "2025-01-01" ∧
    (Block.para "SectionHeader" "RECOMMENDED USES") ∈
      create_spec_sheet
        ⟨"daily-matcha-kagoshima", "Daily Matcha Kagoshima", "Culinary", "Kagoshima",
         "Japan", "Second Harvest", "Partial shade (10 days)", "Stone-ground",
         "600 mesh", "Green with yellow tones", "Mild, slightly astringent",
         "Light, grassy", "~30mg per gram", "~12mg per gram", "~130mg per gram",
         "24 months (unopened), 3 months (opened)", "Cool, dry place.",
         [], ["Daily beverages", "Commercial food production", "Bulk cooking"],
         "25 kg", "7 days", "$15-25 per kg"⟩ "2025-01-01" :=
  ⟨fun hmem =>
    ((spec_sheet_sections
        ⟨"daily-matcha-kagoshima", "Daily Matcha Kagoshima", "Culinary", "Kagoshima",
         "Japan", "Second Harvest", "Partial shade (10 days)", "Stone-ground",
         "600 mesh", "Green with yellow tones", "Mild, slightly astringent",
         "Light, grassy", "~30mg per gram", "~12mg per gram", "~130mg per gram",
         "24 months (unopened), 3 months (opened)", "Cool, dry place.",
         [], ["Daily beverages", "Commercial food production", "Bulk cooking"],
         "25 kg", "7 days", "$15-25 per kg"⟩ "2025-01-01").1.mp hmem) rfl,
   (spec_sheet_sections
        ⟨"daily-matcha-kagoshima", "Daily Matcha Kagoshima", "Culinary", "Kagoshima",
         "Japan", "Second Harvest", "Partial shade (10 days)", "Stone-ground",
         "600 mesh", "Green with yellow tones", "Mild, slightly astringent",
         "Light, grassy", "~30mg per gram", "~12mg per gram", "~130mg per gram",
         "24 months (unopened), 3 months (opened)", "Cool, dry place.",
         [], ["Daily beverages", "Commercial food production", "Bulk cooking"],
         "25 kg", "7 days", "$15-25 per kg"⟩ "2025-01-01").2.2.1⟩

end Ochamon.Pdfs

namespace Ochamon

/-- C7: the output file paths of both pipelines are pure deterministic
functions of the records' slugs — `<slug>.jpg` and `<slug>-thumb.jpg` (plus
the fixed placeholder) for the image pipeline and `<slug>-spec.pdf` for the
document pipeline — so any two catalogs with the same slugs, and in
particular two runs over the same catalog, produce exactly the same paths. -/
theorem filenames_functions_of_slug :
    (∀ ps : List Images.Product,
      Images.imagePaths ps = Images.imagePathsOfSlugs (ps.map Images.Product.slug)) ∧
    (∀ ps qs : List Images.Product,
      ps.map Images.Product.slug = qs.map Images.Product.slug →
        Images.imagePaths ps = Images.imagePaths qs) ∧
    (∀ ps : List Pdfs.Product,
      Pdfs.pdfPaths ps = Pdfs.pdfPathsOfSlugs (ps.map Pdfs.Product.slug)) ∧
    (∀ ps qs : List Pdfs.Product,
      ps.map Pdfs.Product.slug = qs.map Pdfs.Product.slug →
        Pdfs.pdfPaths ps = Pdfs.pdfPaths qs) := by
  have him : ∀ ps : List Images.Product,
      Images.imagePaths ps = Images.imagePathsOfSlugs (ps.map Images.Product.slug) := by
    intro ps
    induction ps with
    | nil => rfl
    | cons p ps ih =>
      simp only [Images.imagePaths, Images.imageWrites, Images.imagePathsOfSlugs,
        List.flatMap_cons, List.map_cons, List.map_append, List.append_assoc] at ih ⊢
      simp_all
  have hpdf : ∀ ps : List Pdfs.Product,
      Pdfs.pdfPaths ps = Pdfs.pdfPathsOfSlugs (ps.map Pdfs.Product.slug) := by
    intro ps
    simp [Pdfs.pdfPaths, Pdfs.pdfPathsOfSlugs, List.map_map]
  exact ⟨him, fun ps qs h => by rw [him, him, h], hpdf,
    fun ps qs h => by rw [hpdf, hpdf, h]⟩

/-- Concrete instance of `filenames_functions_of_slug`: two records differing
in everything except the slug produce identical output paths. -/
theorem filenames_functions_of_slug_witness :
    Images.imagePaths [⟨"matcha", "Name One", "Ceremonial"⟩] =
      Images.imagePaths [⟨"matcha", "Name Two", "Culinary"⟩] ∧
    Pdfs.pdfPaths
        [⟨"matcha", "A", "g", "r", "o", "h", "cu", "pr", "m", "co", "f", "ar",
          "ca", "lt", "cat", "sl", "st", [], [], "mo", "ld", "pr"⟩] =
      Pdfs.pdfPaths
        [⟨"matcha", "B", "g2", "r2", "o2", "h2", "cu2", "pr2", "m2", "co2", "f2",
          "ar2", "ca2", "lt2", "cat2", "sl2", "st2", ["c"], ["u"], "mo2", "ld2",
          "pr2"⟩] :=
  ⟨filenames_functions_of_slug.2.1 _ _ (by decide),
   filenames_functions_of_slug.2.2.2 _ _ (by decide)⟩

end Ochamon
